import Mathlib

/-!
Shallow embedding of the continuous-learning engine in
`ai-services/services/continuous_learning.py`: the task data model, the
priority queue (Python `queue.PriorityQueue` backed by `heapq` over
`(priority, task)` tuples), the worker's task-execution path, the model
registry, the performance metrics, the aggregate human-intelligence score,
and the auto-scheduler.  Machine floats are modelled as rationals; the
randomised strategy internals are abstracted by explicit oracle inputs.
-/

namespace ContinuousLearning

/-- The four learning modes (class LearningMode, lines 14-18). -/
inductive LearningMode where
  | supervised
  | unsupervised
  | reinforcement
  | transfer
deriving DecidableEq

/-- A value in a task parameter map (string or numeric). -/
inductive PVal where
  | str (s : String)
  | num (q : ℚ)
deriving DecidableEq

/-- The LearningTask dataclass (lines 20-28).  `created_at` is a timestamp;
float times are irrelevant to the embedded claims.  Note the source
dataclass derives equality but not an ordering. -/
structure LearningTask where
  task_id : String
  dataset_name : String
  learning_mode : LearningMode
  priority : Int
  parameters : List (String × PVal)
  created_at : Nat
  status : String
deriving DecidableEq

/-- Descriptor stored in the dataset registry (lines 52-88). -/
structure DatasetInfo where
  dtype : String
  features : Nat
  classes : Nat
  samples : Nat
  learning_mode : LearningMode
deriving DecidableEq

/-- The dataset registry populated in `__init__` (lines 52-88), in Python
dict insertion order. -/
def dataset_registry : List (String × DatasetInfo) :=
  [("rice_msc", ⟨"classification", 106, 5, 75000, LearningMode.supervised⟩),
   ("human_faces", ⟨"detection", 128, 7, 7200, LearningMode.supervised⟩),
   ("cifar10", ⟨"classification", 3072, 10, 60000, LearningMode.supervised⟩),
   ("mnist", ⟨"classification", 784, 10, 70000, LearningMode.supervised⟩),
   ("imagenet", ⟨"classification", 150528, 1000, 1400000, LearningMode.supervised⟩)]

/-- Registry lookup, `self.dataset_registry[name]` guarded by membership. -/
def lookupDataset (name : String) : Option DatasetInfo :=
  (dataset_registry.find? (fun kv => kv.1 == name)).map (fun kv => kv.2)

/-- A queue entry: the `(priority, task)` tuple put into the
PriorityQueue (line 121). -/
abbrev Entry := Int × LearningTask

/-- Python comparison `a < b` on `(priority, task)` tuples: tuple comparison
compares priorities first; on a tie it falls through to the LearningTask
components, where `==` (dataclass equality) is available but `<` is not, so
unequal tasks of equal priority raise TypeError. -/
def pyLtEntry (a b : Entry) : Except String Bool :=
  if a.1 = b.1 then
    if a.2 = b.2 then Except.ok false
    else Except.error "TypeError: '<' not supported between LearningTask instances"
  else Except.ok (decide (a.1 < b.1))

/-- `heapq._siftdown(heap, startpos, pos)`: bubble the item at `pos` up
toward `startpos`, comparing with `<` at each step; any comparison failure
propagates as the raised error.  The position strictly decreases toward the
root, so `fuel` (initialised to the position by `siftdown`) never runs out. -/
def siftdownAux (heap : List Entry) (startpos pos fuel : Nat) : Except String (List Entry) :=
  match fuel with
  | 0 => Except.ok heap
  | fuel + 1 =>
    if startpos < pos then
      let parentpos := (pos - 1) / 2
      match heap.get? pos, heap.get? parentpos with
      | some newitem, some parent =>
        match pyLtEntry newitem parent with
        | Except.error e => Except.error e
        | Except.ok true =>
            siftdownAux ((heap.set pos parent).set parentpos newitem) startpos parentpos fuel
        | Except.ok false => Except.ok heap
      | _, _ => Except.ok heap
    else Except.ok heap

/-- Entry point for the sift: start the loop with enough fuel. -/
def siftdown (heap : List Entry) (startpos pos : Nat) : Except String (List Entry) :=
  siftdownAux heap startpos pos pos

/-- `heapq.heappush`: append the item, then sift it down toward the root.
This is what `PriorityQueue.put` performs under the lock. -/
def heappush (heap : List Entry) (item : Entry) : Except String (List Entry) :=
  let h := heap ++ [item]
  siftdown h 0 (h.length - 1)

/-- The task id built at submission, `f"{dataset_name}_{int(time.time())}"`
(line 113): dataset name plus the whole-second clock reading. -/
def makeTaskId (dataset_name : String) (now : Nat) : String :=
  dataset_name ++ "_" ++ toString now

/-- The LearningTask built by `add_learning_task` (lines 112-119). -/
def mkTask (dataset_name : String) (learning_mode : LearningMode) (priority : Int)
    (parameters : List (String × PVal)) (now : Nat) : LearningTask :=
  ⟨makeTaskId dataset_name now, dataset_name, learning_mode, priority, parameters, now, "pending"⟩

/-- `add_learning_task` (lines 109-122): build the task and put
`(priority, task)` into the priority queue.  No validation of
`dataset_name` is performed and no task id is returned. -/
def add_learning_task (q : List Entry) (now : Nat) (dataset_name : String)
    (learning_mode : LearningMode) (priority : Int)
    (parameters : List (String × PVal)) : Except String (List Entry) :=
  heappush q (priority, mkTask dataset_name learning_mode priority parameters now)

/-- Lookup in a Python dict modelled as an insertion-ordered association
list with unique keys. -/
def dictLookup {α : Type} (l : List (String × α)) (k : String) : Option α :=
  (l.find? (fun kv => kv.1 == k)).map (fun kv => kv.2)

/-- Python dict assignment `d[k] = v`: overwrite in place if the key is
present, otherwise append at the end (insertion order preserved). -/
def dictInsert {α : Type} : List (String × α) → String → α → List (String × α)
  | [], k, v => [(k, v)]
  | kv :: rest, k, v =>
      if kv.1 == k then (k, v) :: rest else kv :: dictInsert rest k v

/-- The observable shape of a `model_registry` entry: its source dataset
name, its optional `accuracy` key, and whether it carries a supervised
style `model` key (weight matrices).  Supervised entries (lines 226-231)
carry both; unsupervised (247-252) and reinforcement (284-288) entries
carry neither; transfer entries (309-314) carry a `model` key but no
`accuracy`. -/
structure ModelInfo where
  dataset : String
  accuracy : Option ℚ
  has_model : Bool
deriving DecidableEq

/-- A `performance_metrics` entry (lines 450-456). -/
structure Metric where
  accuracy : ℚ
  dataset : String
  learning_mode : LearningMode
  human_intelligence_contribution : ℚ
deriving DecidableEq

/-- The engine state touched by task execution: the model registry, the
performance metrics, the aggregate human-intelligence score, and the list
of persisted artifacts (the `models/` directory). -/
structure EngineState where
  model_registry : List (String × ModelInfo)
  performance_metrics : List (String × Metric)
  human_intelligence_score : ℚ
  saved_models : List String
deriving DecidableEq

/-- The state set up by `__init__` (lines 37-43): empty registries, score 0. -/
def initState : EngineState := ⟨[], [], 0, []⟩

/-- `_find_similar_model` (lines 411-418): first registry entry whose
dataset differs from the target and which carries a `model` key. -/
def find_similar_model (registry : List (String × ModelInfo)) (dataset_name : String) :
    Option (String × ModelInfo) :=
  registry.find? (fun kv => kv.2.dataset != dataset_name && kv.2.has_model)

/-- Oracle inputs abstracting the environment of one task execution: the
randomised numerics inside a strategy (which either raise or produce a
held-out accuracy for the supervised path) and whether the artifact write
in `_save_model` (real file system output, lines 461-465) raises. -/
structure StratOracle where
  strategyRaises : Bool
  accuracy : ℚ
  saveRaises : Bool
deriving DecidableEq

/-- Strategy dispatch (lines 150-157) and the registry write each strategy
performs as its final statement; `Except.error` is a raised exception.  The
transfer branch with no similar model (lines 295-297) runs no numerics and
writes nothing, so it cannot raise. -/
def dispatchStrategy (st : EngineState) (task : LearningTask) (o : StratOracle) :
    Except Unit EngineState :=
  match task.learning_mode with
  | LearningMode.supervised =>
      if o.strategyRaises then Except.error () else
      let mi : ModelInfo := ⟨task.dataset_name, some o.accuracy, true⟩
      Except.ok { st with model_registry := dictInsert st.model_registry task.task_id mi }
  | LearningMode.unsupervised =>
      if o.strategyRaises then Except.error () else
      let mi : ModelInfo := ⟨task.dataset_name, none, false⟩
      Except.ok { st with model_registry := dictInsert st.model_registry task.task_id mi }
  | LearningMode.reinforcement =>
      if o.strategyRaises then Except.error () else
      let mi : ModelInfo := ⟨task.dataset_name, none, false⟩
      Except.ok { st with model_registry := dictInsert st.model_registry task.task_id mi }
  | LearningMode.transfer =>
      match find_similar_model st.model_registry task.dataset_name with
      | none => Except.ok st
      | some _ =>
          if o.strategyRaises then Except.error () else
          let mi : ModelInfo := ⟨task.dataset_name, none, true⟩
          Except.ok { st with model_registry := dictInsert st.model_registry task.task_id mi }

/-- `_update_performance_metrics` (lines 437-456): if the registry holds an
entry under the task id, bump the score by `accuracy * 0.1` clamped at 1.0
when that entry carries an accuracy, and store a metric record. -/
def update_performance_metrics (st : EngineState) (task : LearningTask) : EngineState :=
  match dictLookup st.model_registry task.task_id with
  | none => st
  | some mi =>
      match mi.accuracy with
      | some a =>
          let m : Metric := ⟨a, task.dataset_name, task.learning_mode, a * (1 / 10)⟩
          { st with
            human_intelligence_score := min 1 (st.human_intelligence_score + a * (1 / 10)),
            performance_metrics := dictInsert st.performance_metrics task.task_id m }
      | none =>
          let m : Metric := ⟨0, task.dataset_name, task.learning_mode, 0⟩
          { st with performance_metrics := dictInsert st.performance_metrics task.task_id m }

/-- `_save_model` (lines 458-467): if the registry holds an entry under the
task id, write the artifact to the `models/` directory; the file write can
raise (disk or serialisation failure), propagated as `Except.error`. -/
def save_model (st : EngineState) (task : LearningTask) (saveRaises : Bool) :
    Except Unit EngineState :=
  match dictLookup st.model_registry task.task_id with
  | none => Except.ok st
  | some _ =>
      if saveRaises then Except.error ()
      else Except.ok { st with saved_models := st.saved_models ++ [task.task_id] }

/-- `_execute_learning_task` (lines 137-170): set status running; if the
dataset is unregistered, log and return early (status stays running);
otherwise dispatch the strategy, update metrics, save the model, and set
status completed; any exception in that span sets status failed.  The
intermediate running status only survives on the early-return branch, so
each branch below writes the task status it ends with. -/
def executeLearningTask (st : EngineState) (task : LearningTask) (o : StratOracle) :
    EngineState × LearningTask :=
  match lookupDataset task.dataset_name with
  | none => (st, { task with status := "running" })
  | some _ =>
      match dispatchStrategy st task o with
      | Except.error _ => (st, { task with status := "failed" })
      | Except.ok st1 =>
          let st2 := update_performance_metrics st1 task
          match save_model st2 task o.saveRaises with
          | Except.error _ => (st2, { task with status := "failed" })
          | Except.ok st3 => (st3, { task with status := "completed" })

/-- The accuracy that `_update_performance_metrics` will see for a task
executed from state `st`: for a supervised run whose numerics do not raise,
the held-out accuracy it stored; for a transfer run with no similar model,
whatever accuracy an existing registry entry under the same task id
carries (a stale record under a colliding task id); otherwise none. -/
def recordedAccuracy (st : EngineState) (task : LearningTask) (o : StratOracle) : Option ℚ :=
  match lookupDataset task.dataset_name with
  | none => none
  | some _ =>
    match task.learning_mode with
    | LearningMode.supervised => if o.strategyRaises then none else some o.accuracy
    | LearningMode.unsupervised => none
    | LearningMode.reinforcement => none
    | LearningMode.transfer =>
        match find_similar_model st.model_registry task.dataset_name with
        | some _ => none
        | none => (dictLookup st.model_registry task.task_id).bind (fun mi => mi.accuracy)

/-- An optional accuracy lying in the unit interval when present. -/
def accuracyOk : Option ℚ → Prop
  | some a => 0 ≤ a ∧ a ≤ 1
  | none => True

/-- Well-formedness tying the aggregate score and all registry accuracies
to the unit interval; established at `__init__` and preserved by every
task execution whose oracle accuracy is in the unit interval. -/
def EngineWF (st : EngineState) : Prop :=
  0 ≤ st.human_intelligence_score ∧ st.human_intelligence_score ≤ 1 ∧
  ∀ kv ∈ st.model_registry, accuracyOk kv.2.accuracy

/-- The worker loop over a list of tasks: each iteration dequeues one task
and executes it (lines 124-135), threading the engine state. -/
def runTasks (st : EngineState) (jobs : List (LearningTask × StratOracle)) : EngineState :=
  jobs.foldl (fun s j => (executeLearningTask s j.1 j.2).1) st

/-- One `add_learning_task` call made by the auto-scheduler: the policy
level of a submission (dataset, mode, priority, parameters). -/
structure Submission where
  dataset_name : String
  learning_mode : LearningMode
  priority : Int
  parameters : List (String × PVal)
deriving DecidableEq

/-- `_get_dataset_accuracy` (lines 505-510): scan `performance_metrics` in
dict insertion order and return the accuracy of the FIRST entry whose
dataset matches; 0.0 when none does. -/
def get_dataset_accuracy (metrics : List (String × Metric)) (dataset_name : String) : ℚ :=
  match metrics.find? (fun kv => kv.2.dataset == dataset_name) with
  | some kv => kv.2.accuracy
  | none => 0

/-- Modelled from the spec wording for comparison: the MOST RECENT
recorded accuracy for a dataset (0 if none), i.e. the last matching
performance-metrics entry in insertion order. -/
def specMostRecentAccuracy (metrics : List (String × Metric)) (dataset_name : String) : ℚ :=
  match metrics.reverse.find? (fun kv => kv.2.dataset == dataset_name) with
  | some kv => kv.2.accuracy
  | none => 0

/-- The remediation submission made at lines 495-500: priority 1, the
dataset's default mode, parameter target_accuracy = 0.8. -/
def remediationSubmission (name : String) (info : DatasetInfo) : Submission :=
  ⟨name, info.learning_mode, 1, [("target_accuracy", PVal.num (4/5))]⟩

/-- The remediation half of `auto_schedule_learning` (lines 487-500): for
every dataset in registry order, submit when its `_get_dataset_accuracy`
is below the 0.8 target. -/
def auto_schedule_remediation (metrics : List (String × Metric)) : List Submission :=
  dataset_registry.filterMap (fun kv =>
    if get_dataset_accuracy metrics kv.1 < 4/5 then some (remediationSubmission kv.1 kv.2)
    else none)

/-- `_are_datasets_compatible` (lines 527-534): the feature-dimensionality
quotient min/max must exceed 0.5; the source indexes the registry
directly, and is only called on registered names. -/
def are_datasets_compatible (dataset1 dataset2 : String) : Bool :=
  match lookupDataset dataset1, lookupDataset dataset2 with
  | some info1, some info2 =>
      decide ((((min info1.features info2.features : ℕ) : ℚ) /
        (((max info1.features info2.features : ℕ) : ℚ))) > 1/2)
  | _, _ => false

/-- The ordered pairs visited by `for i, d1: for d2 in datasets[i+1:]`. -/
def listPairs {α : Type} : List α → List (α × α)
  | [] => []
  | x :: xs => xs.map (fun y => (x, y)) ++ listPairs xs

/-- `_schedule_transfer_learning` (lines 512-525): for each ordered pair
of distinct registered datasets, submit a transfer task for the second at
priority 2 with the first as source when the pair is compatible. -/
def schedule_transfer_learning : List Submission :=
  (listPairs dataset_registry).filterMap (fun p =>
    if are_datasets_compatible p.1.1 p.2.1 then
      some ⟨p.2.1, LearningMode.transfer, 2, [("source_dataset", PVal.str p.1.1)]⟩
    else none)

/-- `auto_schedule_learning` (lines 483-503) at the submission-policy
level: the list of `add_learning_task` calls it makes, in order. -/
def auto_schedule_learning (metrics : List (String × Metric)) : List Submission :=
  auto_schedule_remediation metrics ++ schedule_transfer_learning

/-- Metrics store for the C6 counterexample: the same dataset recorded
twice, an older accuracy 0.5 then a newer accuracy 0.9. -/
def c6Metrics : List (String × Metric) :=
  [("mnist_1000", ⟨1/2, "mnist", LearningMode.supervised, 1/20⟩),
   ("mnist_2000", ⟨9/10, "mnist", LearningMode.supervised, 9/100⟩)]

/-- `epochs_per_task` set in `__init__` (line 48). -/
def epochs_per_task : Nat := 10

/-- Apply a parameter-update step n times. -/
def applyN {M : Type} (step : M → M) : Nat → M → M
  | 0, m => m
  | n + 1, m => applyN step n (step m)

/-- The `_supervised_learning` training loop (lines 209-223) over abstract
numerics: each epoch performs a forward pass, a loss computation and a
parameter update; at every epoch index divisible by 5 the then-current
(just updated) parameters are evaluated on the held-out split and the
`test_accuracy` variable is overwritten.  Returns the final parameters and
the last written `test_accuracy`, the value stored in the ModelRecord at
line 229. -/
def supervisedTrain {M : Type} (step : M → M) (evalAcc : M → ℚ) (epochs : Nat) (m0 : M) :
    M × Option ℚ :=
  (List.range epochs).foldl
    (fun acc e =>
      let m := step acc.1
      if e % 5 == 0 then (m, some (evalAcc m)) else (m, acc.2))
    (m0, none)

/-- Engine state for the C10 witness: one registry entry for the same
dataset as the target and one entry without a supervised artifact. -/
def c10State : EngineState :=
  ⟨[("old1", ⟨"mnist", some (3/4), true⟩), ("old2", ⟨"cifar10", none, false⟩)], [], 1/4, []⟩

/-- C1: the claim asserts a deterministic total dequeue order with FIFO
tie-break on equal priorities, and that equal-priority submissions never
make tasks incomparable or fail.  In the source, `add_learning_task` puts
raw `(priority, task)` tuples into the PriorityQueue; on a priority tie the
heap comparison falls through to the LearningTask values, which carry no
ordering, so the second equal-priority put raises TypeError: the queue
operation fails on the concrete failing input below. -/
theorem C1_equal_priority_put_raises :
    add_learning_task [] 1000 "mnist" LearningMode.supervised 1 [] =
      Except.ok [(1, mkTask "mnist" LearningMode.supervised 1 [] 1000)] ∧
    (add_learning_task [(1, mkTask "mnist" LearningMode.supervised 1 [] 1000)]
        1001 "cifar10" LearningMode.supervised 1 []) =
      Except.error "TypeError: '<' not supported between LearningTask instances" := by
  constructor
  · rfl
  · rfl

/-- C3: the claim asserts submission-time validation: an unregistered
dataset name must be rejected with UnknownDataset and never enter the
queue.  The source performs no validation in `add_learning_task`: a task
for the unregistered name "nonexistent" is enqueued unconditionally (and no
task id is returned to the caller). -/
theorem C3_unregistered_dataset_is_enqueued :
    lookupDataset "nonexistent" = none ∧
    add_learning_task [] 1000 "nonexistent" LearningMode.supervised 1 [] =
      Except.ok [(1, mkTask "nonexistent" LearningMode.supervised 1 [] 1000)] := by
  constructor
  · rfl
  · rfl

/-- C8: the claim asserts task ids are distinct even for two submissions in
the same clock second.  The id is `dataset_name + "_" + int(time.time())`,
so two distinct submissions for the same dataset in the same second get the
same identifier. -/
theorem C8_same_second_submissions_collide :
    (mkTask "mnist" LearningMode.supervised 1 [] 1000).task_id =
      (mkTask "mnist" LearningMode.supervised 2 [] 1000).task_id ∧
    mkTask "mnist" LearningMode.supervised 1 [] 1000 ≠
      mkTask "mnist" LearningMode.supervised 2 [] 1000 ∧
    (mkTask "mnist" LearningMode.supervised 1 [] 1000).task_id = "mnist_1000" := by
  refine ⟨rfl, ?_, rfl⟩
  decide

/-- Looking up the key just written by a dict assignment yields the written
value. -/
theorem dictLookup_dictInsert {α : Type} (l : List (String × α)) (k : String) (v : α) :
    dictLookup (dictInsert l k v) k = some v := by
  induction l with
  | nil => simp [dictInsert, dictLookup, List.find?]
  | cons kv rest ih =>
      cases h : (kv.1 == k) with
      | true => simp [dictInsert, dictLookup, h, List.find?]
      | false =>
          simp only [dictInsert, h, Bool.false_eq_true, if_false]
          simp only [dictLookup, List.find?, h] at ih ⊢
          exact ih

/-- A dict assignment only adds the written pair to the possible members. -/
theorem mem_dictInsert {α : Type} (l : List (String × α)) (k : String) (v : α)
    (x : String × α) (hx : x ∈ dictInsert l k v) : x = (k, v) ∨ x ∈ l := by
  induction l with
  | nil => simpa [dictInsert] using hx
  | cons kv rest ih =>
      cases h : (kv.1 == k) with
      | true =>
          simp only [dictInsert, h, if_true] at hx
          rcases List.mem_cons.1 hx with h1 | h1
          · exact Or.inl h1
          · exact Or.inr (List.mem_cons_of_mem kv h1)
      | false =>
          simp only [dictInsert, h, Bool.false_eq_true, if_false] at hx
          rcases List.mem_cons.1 hx with h1 | h1
          · exact Or.inr (h1 ▸ List.mem_cons_self kv rest)
          · rcases ih h1 with h2 | h2
            · exact Or.inl h2
            · exact Or.inr (List.mem_cons_of_mem kv h2)

/-- A successful dict lookup returns a value stored in the list. -/
theorem dictLookup_eq_some_mem {α : Type} (l : List (String × α)) (k : String) (v : α)
    (h : dictLookup l k = some v) : ∃ k2, (k2, v) ∈ l := by
  unfold dictLookup at h
  cases hf : List.find? (fun kv => kv.1 == k) l with
  | none => rw [hf] at h; simp at h
  | some kv =>
      rw [hf] at h
      simp at h
      refine ⟨kv.1, ?_⟩
      have hmem := List.mem_of_find?_eq_some hf
      have : (kv.1, v) = kv := by rw [← h]
      rw [this]
      exact hmem

/-- `update_performance_metrics` never touches the model registry. -/
theorem update_performance_metrics_registry (s : EngineState) (task : LearningTask) :
    (update_performance_metrics s task).model_registry = s.model_registry := by
  unfold update_performance_metrics
  split
  · rfl
  · split <;> rfl

/-- The aggregate score written by `_update_performance_metrics`: bumped by
`accuracy * 0.1` clamped at 1.0 exactly when the registry entry under the
task id carries an accuracy. -/
theorem update_performance_metrics_score (s : EngineState) (task : LearningTask) :
    (update_performance_metrics s task).human_intelligence_score =
      match (dictLookup s.model_registry task.task_id).bind (fun mi => mi.accuracy) with
      | some a => min 1 (s.human_intelligence_score + a * (1 / 10))
      | none => s.human_intelligence_score := by
  unfold update_performance_metrics
  cases hl : dictLookup s.model_registry task.task_id with
  | none => rfl
  | some mi =>
      obtain ⟨d, acc, hm⟩ := mi
      cases acc <;> simp

/-- A successful `_save_model` changes only the persisted-artifact list. -/
theorem save_model_ok (s : EngineState) (task : LearningTask) (b : Bool) (s3 : EngineState)
    (h : save_model s task b = Except.ok s3) :
    s3.human_intelligence_score = s.human_intelligence_score ∧
    s3.model_registry = s.model_registry ∧
    s3.performance_metrics = s.performance_metrics := by
  unfold save_model at h
  split at h
  · cases h; exact ⟨rfl, rfl, rfl⟩
  · cases b with
    | true => simp at h
    | false => simp only [Bool.false_eq_true, if_false, Except.ok.injEq] at h
               cases h; exact ⟨rfl, rfl, rfl⟩

/-- Characterisation of the aggregate score across one task execution: it
moves exactly when an accuracy is recorded for the task id, by the clamped
contribution `accuracy * 0.1`. -/
theorem executeLearningTask_score (st : EngineState) (task : LearningTask) (o : StratOracle) :
    (executeLearningTask st task o).1.human_intelligence_score =
      match recordedAccuracy st task o with
      | some a => min 1 (st.human_intelligence_score + a * (1 / 10))
      | none => st.human_intelligence_score := by
  cases hds : lookupDataset task.dataset_name with
  | none => simp [executeLearningTask, recordedAccuracy, hds]
  | some info =>
      cases hdisp : dispatchStrategy st task o with
      | error e =>
          have hra : recordedAccuracy st task o = none := by
            unfold dispatchStrategy at hdisp
            unfold recordedAccuracy
            rw [hds]
            cases hm : task.learning_mode <;> rw [hm] at hdisp
            case supervised =>
              cases hr : o.strategyRaises with
              | true => simp [hr]
              | false => rw [hr] at hdisp; simp at hdisp
            case transfer =>
              cases hf : find_similar_model st.model_registry task.dataset_name with
              | none => rw [hf] at hdisp; simp at hdisp
              | some _ => simp [hf]
          simp [executeLearningTask, hds, hdisp, hra]
      | ok st1 =>
          have hmain : (executeLearningTask st task o).1.human_intelligence_score =
              (update_performance_metrics st1 task).human_intelligence_score := by
            cases hsm : save_model (update_performance_metrics st1 task) task o.saveRaises with
            | error u => simp [executeLearningTask, hds, hdisp, hsm]
            | ok s3 =>
                have := (save_model_ok _ _ _ _ hsm).1
                simp [executeLearningTask, hds, hdisp, hsm, this]
          rw [hmain, update_performance_metrics_score]
          unfold dispatchStrategy at hdisp
          cases hm : task.learning_mode <;> rw [hm] at hdisp
          case supervised =>
            cases hr : o.strategyRaises with
            | true => rw [hr] at hdisp; simp at hdisp
            | false =>
                rw [hr] at hdisp
                simp only [Bool.false_eq_true, if_false, Except.ok.injEq] at hdisp
                cases hdisp
                simp [recordedAccuracy, hds, hm, hr, dictLookup_dictInsert]
          case unsupervised =>
            cases hr : o.strategyRaises with
            | true => rw [hr] at hdisp; simp at hdisp
            | false =>
                rw [hr] at hdisp
                simp only [Bool.false_eq_true, if_false, Except.ok.injEq] at hdisp
                cases hdisp
                simp [recordedAccuracy, hds, hm, dictLookup_dictInsert]
          case reinforcement =>
            cases hr : o.strategyRaises with
            | true => rw [hr] at hdisp; simp at hdisp
            | false =>
                rw [hr] at hdisp
                simp only [Bool.false_eq_true, if_false, Except.ok.injEq] at hdisp
                cases hdisp
                simp [recordedAccuracy, hds, hm, dictLookup_dictInsert]
          case transfer =>
            cases hf : find_similar_model st.model_registry task.dataset_name with
            | none =>
                rw [hf] at hdisp
                simp only [Except.ok.injEq] at hdisp
                cases hdisp
                simp [recordedAccuracy, hds, hm, hf]
            | some kv =>
                rw [hf] at hdisp
                cases hr : o.strategyRaises with
                | true => rw [hr] at hdisp; simp at hdisp
                | false =>
                    rw [hr] at hdisp
                    simp only [Bool.false_eq_true, if_false, Except.ok.injEq] at hdisp
                    cases hdisp
                    simp [recordedAccuracy, hds, hm, hf, dictLookup_dictInsert]

/-- The model registry after one task execution is either unchanged or has
one entry written under the task id with the oracle accuracy (supervised)
or no accuracy at all. -/
theorem executeLearningTask_registry_inv (st : EngineState) (task : LearningTask)
    (o : StratOracle) (hreg : ∀ kv ∈ st.model_registry, accuracyOk kv.2.accuracy)
    (h0 : 0 ≤ o.accuracy) (h1 : o.accuracy ≤ 1) :
    ∀ kv ∈ (executeLearningTask st task o).1.model_registry, accuracyOk kv.2.accuracy := by
  have hins : ∀ mi : ModelInfo, accuracyOk mi.accuracy →
      ∀ kv ∈ dictInsert st.model_registry task.task_id mi, accuracyOk kv.2.accuracy := by
    intro mi hmi kv hkv
    rcases mem_dictInsert _ _ _ _ hkv with h | h
    · rw [h]; exact hmi
    · exact hreg kv h
  cases hds : lookupDataset task.dataset_name with
  | none => simpa [executeLearningTask, hds] using hreg
  | some info =>
      cases hdisp : dispatchStrategy st task o with
      | error e => simpa [executeLearningTask, hds, hdisp] using hreg
      | ok st1 =>
          have hst1 : ∀ kv ∈ st1.model_registry, accuracyOk kv.2.accuracy := by
            unfold dispatchStrategy at hdisp
            cases hm : task.learning_mode <;> rw [hm] at hdisp
            case supervised =>
              cases hr : o.strategyRaises with
              | true => rw [hr] at hdisp; simp at hdisp
              | false =>
                  rw [hr] at hdisp
                  simp only [Bool.false_eq_true, if_false, Except.ok.injEq] at hdisp
                  cases hdisp
                  exact hins _ ⟨h0, h1⟩
            case unsupervised =>
              cases hr : o.strategyRaises with
              | true => rw [hr] at hdisp; simp at hdisp
              | false =>
                  rw [hr] at hdisp
                  simp only [Bool.false_eq_true, if_false, Except.ok.injEq] at hdisp
                  cases hdisp
                  exact hins _ trivial
            case reinforcement =>
              cases hr : o.strategyRaises with
              | true => rw [hr] at hdisp; simp at hdisp
              | false =>
                  rw [hr] at hdisp
                  simp only [Bool.false_eq_true, if_false, Except.ok.injEq] at hdisp
                  cases hdisp
                  exact hins _ trivial
            case transfer =>
              cases hf : find_similar_model st.model_registry task.dataset_name with
              | none =>
                  rw [hf] at hdisp
                  simp only [Except.ok.injEq] at hdisp
                  cases hdisp
                  exact hreg
              | some kv0 =>
                  rw [hf] at hdisp
                  cases hr : o.strategyRaises with
                  | true => rw [hr] at hdisp; simp at hdisp
                  | false =>
                      rw [hr] at hdisp
                      simp only [Bool.false_eq_true, if_false, Except.ok.injEq] at hdisp
                      cases hdisp
                      exact hins _ trivial
          cases hsm : save_model (update_performance_metrics st1 task) task o.saveRaises with
          | error u =>
              have : (executeLearningTask st task o).1 = update_performance_metrics st1 task := by
                simp [executeLearningTask, hds, hdisp, hsm]
              rw [this, update_performance_metrics_registry]
              exact hst1
          | ok s3 =>
              have hres : (executeLearningTask st task o).1 = s3 := by
                simp [executeLearningTask, hds, hdisp, hsm]
              rw [hres, (save_model_ok _ _ _ _ hsm).2.1, update_performance_metrics_registry]
              exact hst1

/-- Any accuracy recorded for a task execution from a well-formed state
with a unit-interval oracle lies in the unit interval. -/
theorem recordedAccuracy_bounds (st : EngineState) (task : LearningTask) (o : StratOracle)
    (hreg : ∀ kv ∈ st.model_registry, accuracyOk kv.2.accuracy)
    (h0 : 0 ≤ o.accuracy) (h1 : o.accuracy ≤ 1) :
    ∀ a, recordedAccuracy st task o = some a → 0 ≤ a ∧ a ≤ 1 := by
  intro a ha
  unfold recordedAccuracy at ha
  cases hds : lookupDataset task.dataset_name <;> rw [hds] at ha
  · simp at ha
  · cases hm : task.learning_mode <;> rw [hm] at ha
    case supervised =>
      cases hr : o.strategyRaises <;> rw [hr] at ha <;> simp at ha
      rw [← ha]; exact ⟨h0, h1⟩
    case unsupervised => simp at ha
    case reinforcement => simp at ha
    case transfer =>
      cases hf : find_similar_model st.model_registry task.dataset_name <;> rw [hf] at ha
      · cases hl : dictLookup st.model_registry task.task_id <;> rw [hl] at ha
        · simp at ha
        · simp at ha
          obtain ⟨k2, hmem⟩ := dictLookup_eq_some_mem _ _ _ hl
          have h2 := hreg _ hmem
          dsimp only at h2
          rw [ha] at h2
          exact h2
      · simp at ha

/-- One task execution from a well-formed state keeps the state well
formed and never decreases the aggregate score. -/
theorem executeLearningTask_wf_mono (st : EngineState) (task : LearningTask) (o : StratOracle)
    (hwf : EngineWF st) (h0 : 0 ≤ o.accuracy) (h1 : o.accuracy ≤ 1) :
    EngineWF (executeLearningTask st task o).1 ∧
    st.human_intelligence_score ≤ (executeLearningTask st task o).1.human_intelligence_score := by
  obtain ⟨hw0, hw1, hwreg⟩ := hwf
  have hscore := executeLearningTask_score st task o
  have hbounds := recordedAccuracy_bounds st task o hwreg h0 h1
  have hsc : 0 ≤ (executeLearningTask st task o).1.human_intelligence_score ∧
      (executeLearningTask st task o).1.human_intelligence_score ≤ 1 ∧
      st.human_intelligence_score ≤
        (executeLearningTask st task o).1.human_intelligence_score := by
    rw [hscore]
    cases hra : recordedAccuracy st task o with
    | none => exact ⟨hw0, hw1, le_refl _⟩
    | some a =>
        obtain ⟨ha0, ha1⟩ := hbounds a hra
        simp only []
        rcases min_cases (1 : ℚ) (st.human_intelligence_score + a * (1 / 10)) with
          ⟨heq, hle⟩ | ⟨heq, hlt⟩ <;> rw [heq] <;>
          refine ⟨by linarith, by linarith, by linarith⟩
  exact ⟨⟨hsc.1, hsc.2.1, executeLearningTask_registry_inv st task o hwreg h0 h1⟩, hsc.2.2⟩

/-- C4 counterexample: the claim says the aggregate score changes only
when a completed task yields an accuracy.  Task ids collide for same
dataset and second (see C8), and `_update_performance_metrics` keys by
task id alone: a transfer task whose id collides with an earlier
supervised record, executed with no compatible source model, stores no
model itself (its registry is returned unchanged) yet completes and bumps
the score by the stale record's accuracy contribution. -/
theorem C4_aggregate_score_counterexample :
    (executeLearningTask ⟨[("mnist_1000", ⟨"mnist", some (1/2), true⟩)], [], 0, []⟩
        ⟨"mnist_1000", "mnist", LearningMode.transfer, 2, [], 1000, "pending"⟩
        ⟨false, 0, false⟩).2.status = "completed" ∧
    (executeLearningTask ⟨[("mnist_1000", ⟨"mnist", some (1/2), true⟩)], [], 0, []⟩
        ⟨"mnist_1000", "mnist", LearningMode.transfer, 2, [], 1000, "pending"⟩
        ⟨false, 0, false⟩).1.model_registry = [("mnist_1000", ⟨"mnist", some (1/2), true⟩)] ∧
    (executeLearningTask ⟨[("mnist_1000", ⟨"mnist", some (1/2), true⟩)], [], 0, []⟩
        ⟨"mnist_1000", "mnist", LearningMode.transfer, 2, [], 1000, "pending"⟩
        ⟨false, 0, false⟩).1.human_intelligence_score = min 1 (0 + 1/2 * (1/10)) ∧
    min (1 : ℚ) (0 + 1/2 * (1/10)) ≠ 0 := by
  refine ⟨rfl, rfl, rfl, ?_⟩
  rw [show (0 : ℚ) + 1/2 * (1/10) = 1/20 by norm_num]
  rw [min_eq_right (by norm_num : (1/20 : ℚ) ≤ 1)]
  norm_num

/-- C4 amended: the aggregate score starts at 0, always stays in the unit
interval, is clamped at 1.0, and is non-decreasing across any sequence of
executed tasks whose oracle accuracies lie in the unit interval; one
execution moves the score exactly when an accuracy is recorded under the
executed task id (its own supervised result, or a stale registry record
under a colliding id), by `accuracy * 0.1` clamped at 1.0. -/
theorem C4_aggregate_score_amended
    (jobs : List (LearningTask × StratOracle))
    (hjobs : ∀ j ∈ jobs, 0 ≤ j.2.accuracy ∧ j.2.accuracy ≤ 1) :
    initState.human_intelligence_score = 0 ∧
    EngineWF initState ∧
    (∀ st, EngineWF st →
      EngineWF (runTasks st jobs) ∧
      st.human_intelligence_score ≤ (runTasks st jobs).human_intelligence_score) ∧
    (∀ st task o, (executeLearningTask st task o).1.human_intelligence_score =
      match recordedAccuracy st task o with
      | some a => min 1 (st.human_intelligence_score + a * (1 / 10))
      | none => st.human_intelligence_score) := by
  have main : ∀ l : List (LearningTask × StratOracle),
      (∀ j ∈ l, 0 ≤ j.2.accuracy ∧ j.2.accuracy ≤ 1) →
      ∀ st, EngineWF st → EngineWF (runTasks st l) ∧
        st.human_intelligence_score ≤ (runTasks st l).human_intelligence_score := by
    intro l
    induction l with
    | nil => intro _ st hwf; exact ⟨hwf, le_refl _⟩
    | cons j rest ih =>
        intro hl st hwf
        obtain ⟨hj0, hj1⟩ := hl j (List.mem_cons_self j rest)
        have hstep := executeLearningTask_wf_mono st j.1 j.2 hwf hj0 hj1
        have htail := ih (fun x hx => hl x (List.mem_cons_of_mem j hx))
          (executeLearningTask st j.1 j.2).1 hstep.1
        exact ⟨htail.1, le_trans hstep.2 htail.2⟩
  refine ⟨rfl, ⟨le_refl 0, by norm_num [initState], ?_⟩, main jobs hjobs, executeLearningTask_score⟩
  intro kv hkv
  simp [initState] at hkv

/-- Closed instance of the C4 amended theorem at a one-task job list. -/
theorem C4_aggregate_score_amended_witness :
    initState.human_intelligence_score = 0 ∧
    EngineWF initState ∧
    (∀ st, EngineWF st →
      EngineWF (runTasks st
        [(mkTask "mnist" LearningMode.supervised 1 [] 1000, ⟨false, 1/2, false⟩)]) ∧
      st.human_intelligence_score ≤ (runTasks st
        [(mkTask "mnist" LearningMode.supervised 1 [] 1000,
          ⟨false, 1/2, false⟩)]).human_intelligence_score) ∧
    (∀ st task o, (executeLearningTask st task o).1.human_intelligence_score =
      match recordedAccuracy st task o with
      | some a => min 1 (st.human_intelligence_score + a * (1 / 10))
      | none => st.human_intelligence_score) :=
  C4_aggregate_score_amended
    [(mkTask "mnist" LearningMode.supervised 1 [] 1000, ⟨false, 1/2, false⟩)]
    (by
      intro j hj
      rw [List.mem_singleton] at hj
      subst hj
      constructor <;> norm_num)

/-- Evaluation of the compatibility check on all ten ordered pairs of
registered datasets: only rice_msc/human_faces (106 vs 128 features)
exceeds the 0.5 quotient threshold. -/
theorem are_datasets_compatible_eval :
    are_datasets_compatible "rice_msc" "human_faces" = true ∧
    are_datasets_compatible "rice_msc" "cifar10" = false ∧
    are_datasets_compatible "rice_msc" "mnist" = false ∧
    are_datasets_compatible "rice_msc" "imagenet" = false ∧
    are_datasets_compatible "human_faces" "cifar10" = false ∧
    are_datasets_compatible "human_faces" "mnist" = false ∧
    are_datasets_compatible "human_faces" "imagenet" = false ∧
    are_datasets_compatible "cifar10" "mnist" = false ∧
    are_datasets_compatible "cifar10" "imagenet" = false ∧
    are_datasets_compatible "mnist" "imagenet" = false := by
  have l1 : lookupDataset "rice_msc" =
      some ⟨"classification", 106, 5, 75000, LearningMode.supervised⟩ := rfl
  have l2 : lookupDataset "human_faces" =
      some ⟨"detection", 128, 7, 7200, LearningMode.supervised⟩ := rfl
  have l3 : lookupDataset "cifar10" =
      some ⟨"classification", 3072, 10, 60000, LearningMode.supervised⟩ := rfl
  have l4 : lookupDataset "mnist" =
      some ⟨"classification", 784, 10, 70000, LearningMode.supervised⟩ := rfl
  have l5 : lookupDataset "imagenet" =
      some ⟨"classification", 150528, 1000, 1400000, LearningMode.supervised⟩ := rfl
  have ec1 : are_datasets_compatible "rice_msc" "human_faces" = true := by
    unfold are_datasets_compatible; rw [l1, l2]; norm_num
  have ec2 : are_datasets_compatible "rice_msc" "cifar10" = false := by
    unfold are_datasets_compatible; rw [l1, l3]; norm_num
  have ec3 : are_datasets_compatible "rice_msc" "mnist" = false := by
    unfold are_datasets_compatible; rw [l1, l4]; norm_num
  have ec4 : are_datasets_compatible "rice_msc" "imagenet" = false := by
    unfold are_datasets_compatible; rw [l1, l5]; norm_num
  have ec5 : are_datasets_compatible "human_faces" "cifar10" = false := by
    unfold are_datasets_compatible; rw [l2, l3]; norm_num
  have ec6 : are_datasets_compatible "human_faces" "mnist" = false := by
    unfold are_datasets_compatible; rw [l2, l4]; norm_num
  have ec7 : are_datasets_compatible "human_faces" "imagenet" = false := by
    unfold are_datasets_compatible; rw [l2, l5]; norm_num
  have ec8 : are_datasets_compatible "cifar10" "mnist" = false := by
    unfold are_datasets_compatible; rw [l3, l4]; norm_num
  have ec9 : are_datasets_compatible "cifar10" "imagenet" = false := by
    unfold are_datasets_compatible; rw [l3, l5]; norm_num
  have ec10 : are_datasets_compatible "mnist" "imagenet" = false := by
    unfold are_datasets_compatible; rw [l4, l5]; norm_num
  exact ⟨ec1, ec2, ec3, ec4, ec5, ec6, ec7, ec8, ec9, ec10⟩

/-- Among the ten ordered pairs visited by `_schedule_transfer_learning`,
exactly one produces a submission. -/
theorem schedule_transfer_eq :
    schedule_transfer_learning =
      [⟨"human_faces", LearningMode.transfer, 2, [("source_dataset", PVal.str "rice_msc")]⟩] := by
  obtain ⟨ec1, ec2, ec3, ec4, ec5, ec6, ec7, ec8, ec9, ec10⟩ := are_datasets_compatible_eval
  unfold schedule_transfer_learning
  rw [show listPairs dataset_registry =
    [(("rice_msc", ⟨"classification", 106, 5, 75000, LearningMode.supervised⟩),
      ("human_faces", ⟨"detection", 128, 7, 7200, LearningMode.supervised⟩)),
     (("rice_msc", ⟨"classification", 106, 5, 75000, LearningMode.supervised⟩),
      ("cifar10", ⟨"classification", 3072, 10, 60000, LearningMode.supervised⟩)),
     (("rice_msc", ⟨"classification", 106, 5, 75000, LearningMode.supervised⟩),
      ("mnist", ⟨"classification", 784, 10, 70000, LearningMode.supervised⟩)),
     (("rice_msc", ⟨"classification", 106, 5, 75000, LearningMode.supervised⟩),
      ("imagenet", ⟨"classification", 150528, 1000, 1400000, LearningMode.supervised⟩)),
     (("human_faces", ⟨"detection", 128, 7, 7200, LearningMode.supervised⟩),
      ("cifar10", ⟨"classification", 3072, 10, 60000, LearningMode.supervised⟩)),
     (("human_faces", ⟨"detection", 128, 7, 7200, LearningMode.supervised⟩),
      ("mnist", ⟨"classification", 784, 10, 70000, LearningMode.supervised⟩)),
     (("human_faces", ⟨"detection", 128, 7, 7200, LearningMode.supervised⟩),
      ("imagenet", ⟨"classification", 150528, 1000, 1400000, LearningMode.supervised⟩)),
     (("cifar10", ⟨"classification", 3072, 10, 60000, LearningMode.supervised⟩),
      ("mnist", ⟨"classification", 784, 10, 70000, LearningMode.supervised⟩)),
     (("cifar10", ⟨"classification", 3072, 10, 60000, LearningMode.supervised⟩),
      ("imagenet", ⟨"classification", 150528, 1000, 1400000, LearningMode.supervised⟩)),
     (("mnist", ⟨"classification", 784, 10, 70000, LearningMode.supervised⟩),
      ("imagenet", ⟨"classification", 150528, 1000, 1400000, LearningMode.supervised⟩))] from rfl]
  simp [List.filterMap_cons, ec1, ec2, ec3, ec4, ec5, ec6, ec7, ec8, ec9, ec10]

/-- C6 counterexample: the claim keys remediation on the MOST RECENT
recorded accuracy, but `_get_dataset_accuracy` returns the FIRST matching
metrics entry in insertion order (the oldest).  With an old accuracy 0.5
and a newer accuracy 0.9 for mnist, the most recent accuracy is at least
the 0.8 target, yet the auto-scheduler still submits a remediation task
for mnist because it reads the stale 0.5. -/
theorem C6_most_recent_accuracy_counterexample :
    specMostRecentAccuracy c6Metrics "mnist" = 9/10 ∧
    ¬ specMostRecentAccuracy c6Metrics "mnist" < 4/5 ∧
    get_dataset_accuracy c6Metrics "mnist" = 1/2 ∧
    remediationSubmission "mnist" ⟨"classification", 784, 10, 70000, LearningMode.supervised⟩ ∈
      auto_schedule_learning c6Metrics := by
  refine ⟨rfl, ?_, rfl, ?_⟩
  · rw [show specMostRecentAccuracy c6Metrics "mnist" = 9/10 from rfl]
    norm_num
  apply List.mem_append.2
  left
  apply List.mem_filterMap.2
  refine ⟨("mnist", ⟨"classification", 784, 10, 70000, LearningMode.supervised⟩),
    by simp [dataset_registry], ?_⟩
  rw [if_pos]
  rw [show get_dataset_accuracy c6Metrics "mnist" = 1/2 from rfl]
  norm_num

/-- C6 amended: for every registered dataset, the auto-scheduler submits
the priority-1 remediation task with the dataset's default mode and
parameter target_accuracy 0.8 exactly when the FIRST recorded accuracy
for that dataset in metrics insertion order (0 if none) is below 0.8. -/
theorem C6_remediation_amended (metrics : List (String × Metric)) (name : String)
    (info : DatasetInfo) (h : (name, info) ∈ dataset_registry) :
    remediationSubmission name info ∈ auto_schedule_learning metrics ↔
      get_dataset_accuracy metrics name < 4/5 := by
  constructor
  · intro hmem
    rcases List.mem_append.1 hmem with h1 | h1
    · rcases List.mem_filterMap.1 h1 with ⟨kv, hkv, hf⟩
      by_cases hc : get_dataset_accuracy metrics kv.1 < 4/5
      · rw [if_pos hc] at hf
        have hinj := Option.some.inj hf
        have hn : kv.1 = name := congrArg Submission.dataset_name hinj
        rw [← hn]
        exact hc
      · rw [if_neg hc] at hf
        exact absurd hf (by simp)
    · exfalso
      rw [schedule_transfer_eq, List.mem_singleton] at h1
      have hp := congrArg Submission.priority h1
      simp [remediationSubmission] at hp
  · intro hacc
    apply List.mem_append.2
    left
    apply List.mem_filterMap.2
    exact ⟨(name, info), h, by rw [if_pos hacc]⟩

/-- Closed instance of the C6 amended theorem: with no metrics recorded,
the first recorded accuracy defaults to 0 and mnist is remediated. -/
theorem C6_remediation_amended_witness :
    (remediationSubmission "mnist" ⟨"classification", 784, 10, 70000, LearningMode.supervised⟩ ∈
        auto_schedule_learning [] ↔
      get_dataset_accuracy [] "mnist" < 4/5) :=
  C6_remediation_amended [] "mnist" ⟨"classification", 784, 10, 70000, LearningMode.supervised⟩
    (by simp [dataset_registry])

/-- C7: for every ordered pair of registered datasets, the auto-scheduler
submits the transfer task for the second dataset at priority 2 with the
first as source exactly when min(dimA, dimB) / max(dimA, dimB) exceeds
0.5; concretely the 106/128 pair (quotient about 0.83) is scheduled and
the 784/3072 pair (quotient about 0.26) is not. -/
theorem C7_transfer_pair_scheduling :
    (∀ p ∈ listPairs dataset_registry,
      ((⟨p.2.1, LearningMode.transfer, 2, [("source_dataset", PVal.str p.1.1)]⟩ : Submission) ∈
          schedule_transfer_learning
        ↔ are_datasets_compatible p.1.1 p.2.1 = true)) ∧
    (⟨"human_faces", LearningMode.transfer, 2, [("source_dataset", PVal.str "rice_msc")]⟩ :
        Submission) ∈ schedule_transfer_learning ∧
    (⟨"mnist", LearningMode.transfer, 2, [("source_dataset", PVal.str "cifar10")]⟩ :
        Submission) ∉ schedule_transfer_learning ∧
    are_datasets_compatible "rice_msc" "human_faces" = true ∧
    are_datasets_compatible "cifar10" "mnist" = false ∧
    (106 : ℚ) / 128 > 1/2 ∧ ¬ (784 : ℚ) / 3072 > 1/2 := by
  have hsch := schedule_transfer_eq
  obtain ⟨ec1, ec2, ec3, ec4, ec5, ec6, ec7, ec8, ec9, ec10⟩ := are_datasets_compatible_eval
  refine ⟨?_, by rw [hsch]; exact List.mem_singleton.2 rfl, by rw [hsch]; simp,
    ec1, ec8, by norm_num, by norm_num⟩
  intro p hp
  rw [hsch]
  constructor
  · intro hmemp
    rw [List.mem_singleton] at hmemp
    have hsnd : p.2.1 = "human_faces" := congrArg Submission.dataset_name hmemp
    have hfst2 : p.1.1 = "rice_msc" := by
      have h3 := congrArg Submission.parameters hmemp
      simp at h3
      exact h3
    rw [hfst2, hsnd]
    exact ec1
  · intro hcomp
    simp only [listPairs, dataset_registry] at hp
    simp at hp
    rcases hp with rfl | rfl | rfl | rfl | rfl | rfl | rfl | rfl | rfl | rfl <;>
      dsimp only at hcomp ⊢ <;>
      first
        | exact List.mem_singleton.2 rfl
        | simp only [ec2, ec3, ec4, ec5, ec6, ec7, ec8, ec9, ec10,
            Bool.false_eq_true] at hcomp

/-- C9 counterexample: the claim says the stored accuracy equals the test
accuracy of the final trained parameters.  With 10 epochs the last
evaluation happens at epoch index 5, after 6 update steps, and epochs 6-9
update the parameters four more times without re-evaluating: for the
update step successor on a counter model, the stored accuracy is 6 while
the final parameters evaluate to 10. -/
theorem C9_final_accuracy_counterexample :
    (supervisedTrain Nat.succ (fun n => (n : ℚ)) epochs_per_task 0).2 = some ((6 : ℕ) : ℚ) ∧
    (supervisedTrain Nat.succ (fun n => (n : ℚ)) epochs_per_task 0).1 = 10 ∧
    (fun n => (n : ℚ)) ((supervisedTrain Nat.succ (fun n => (n : ℚ)) epochs_per_task 0).1) =
      ((10 : ℕ) : ℚ) ∧
    some ((6 : ℕ) : ℚ) ≠ some ((10 : ℕ) : ℚ) := by
  refine ⟨rfl, rfl, rfl, by norm_num⟩

/-- C9 amended: for any parameter space, update step and held-out
evaluation, the accuracy stored for a completed supervised task is the
held-out evaluation taken at the last epoch index divisible by 5 (epoch 5
of the 10 configured epochs, i.e. after 6 of the 10 update steps), not an
evaluation of the final parameters, which are the result of all 10 update
steps; evaluations happen at every epoch index divisible by 5. -/
theorem C9_stored_accuracy_amended (M : Type) (step : M → M) (evalAcc : M → ℚ) (m0 : M) :
    supervisedTrain step evalAcc epochs_per_task m0 =
      (applyN step 10 m0, some (evalAcc (applyN step 6 m0))) := rfl

/-- C2: the claim (and the spec) require a task whose dataset name is
absent from the registry at execution time to be marked failed before the
Worker returns to its loop.  The source (lines 144-147) logs the error and
returns early, after status was already set to running and before any
terminal status is written: the task stays in status running and the engine
state is untouched. -/
theorem C2_unknown_dataset_leaves_status_running :
    (executeLearningTask initState
        (mkTask "nonexistent" LearningMode.supervised 1 [] 1000) ⟨false, 0, false⟩).2.status
      = "running" ∧
    ("running" : String) ≠ "failed" ∧
    (executeLearningTask initState
        (mkTask "nonexistent" LearningMode.supervised 1 [] 1000) ⟨false, 0, false⟩).1
      = initState := by
  refine ⟨rfl, by decide, rfl⟩

/-- C5 counterexample: the claim says a failed task leaves both stores
unchanged for every point at which the bookkeeping can raise.  But
`_save_model` writes a file after the registry and metrics writes; if that
write raises, the outer handler (lines 168-170) marks the task failed, yet
the ModelRecord and the PerformanceMetric written moments before remain. -/
theorem C5_persistence_failure_leaves_entries :
    (executeLearningTask initState
        (mkTask "mnist" LearningMode.supervised 1 [] 1000) ⟨false, 1/2, true⟩).2.status
      = "failed" ∧
    dictLookup (executeLearningTask initState
        (mkTask "mnist" LearningMode.supervised 1 [] 1000) ⟨false, 1/2, true⟩).1.model_registry
        "mnist_1000"
      = some ⟨"mnist", some (1/2), true⟩ ∧
    dictLookup (executeLearningTask initState
        (mkTask "mnist" LearningMode.supervised 1 [] 1000)
        ⟨false, 1/2, true⟩).1.performance_metrics "mnist_1000"
      = some ⟨1/2, "mnist", LearningMode.supervised, 1/2 * (1/10)⟩ ∧
    (1/2 : ℚ) * (1/10) = 1/20 := by
  refine ⟨rfl, rfl, rfl, by norm_num⟩

/-- C5 amended: a task that terminates failed for any reason other than a
raise inside `_save_model` (dataset-load failure or a raise inside the
strategy, both of which occur before the registry write) leaves the engine
state entirely unchanged, so no ModelRecord and no PerformanceMetric keyed
by its task id is created; a raise inside persistence instead leaves the
failed task with both entries present. -/
theorem C5_failure_outside_persistence_leaves_state_unchanged
    (st : EngineState) (task : LearningTask) (o : StratOracle)
    (hsave : o.saveRaises = false)
    (hfailed : (executeLearningTask st task o).2.status = "failed") :
    (executeLearningTask st task o).1 = st := by
  cases hds : lookupDataset task.dataset_name with
  | none =>
      simp [executeLearningTask, hds] at hfailed ⊢
  | some info =>
      cases hdisp : dispatchStrategy st task o with
      | error e => simp [executeLearningTask, hds, hdisp]
      | ok st1 =>
          cases hsm : save_model (update_performance_metrics st1 task) task o.saveRaises with
          | error u =>
              exfalso
              rw [hsave] at hsm
              unfold save_model at hsm
              split at hsm <;> simp at hsm
          | ok st3 =>
              exfalso
              simp [executeLearningTask, hds, hdisp, hsm] at hfailed

/-- Closed instance of the C5 amended theorem: a supervised task whose
strategy raises ends failed with the engine state unchanged. -/
theorem C5_failure_outside_persistence_witness :
    (executeLearningTask initState
        (mkTask "mnist" LearningMode.supervised 1 [] 1000) ⟨true, 0, false⟩).1 = initState :=
  C5_failure_outside_persistence_leaves_state_unchanged initState
    (mkTask "mnist" LearningMode.supervised 1 [] 1000) ⟨true, 0, false⟩ rfl (by decide)

/-- C10 counterexample: the claim overlooks the colliding-task-id case.
Task ids are dataset name plus whole second, so a transfer task can carry
the id under which an earlier task for the same dataset already stored a
record (see C8).  Such a registry satisfies the claim's premise - its only
entry has the SAME dataset as the target, so no entry has a different
dataset and a model artifact - and the task completes and stores no model
record of its own, yet `_update_performance_metrics` finds the stale
record under the task id and writes a PerformanceMetric, the aggregate
score changes by the stale accuracy contribution, and `_save_model`
re-persists the stale artifact under the task id. -/
theorem C10_colliding_id_counterexample :
    (∀ kv ∈ ([("cifar10_1234", ⟨"cifar10", some (3/4), true⟩)] : List (String × ModelInfo)),
      kv.2.dataset = "cifar10" ∨ kv.2.has_model = false) ∧
    (executeLearningTask ⟨[("cifar10_1234", ⟨"cifar10", some (3/4), true⟩)], [], 0, []⟩
        ⟨"cifar10_1234", "cifar10", LearningMode.transfer, 2, [], 1234, "pending"⟩
        ⟨false, 0, false⟩).2.status = "completed" ∧
    (executeLearningTask ⟨[("cifar10_1234", ⟨"cifar10", some (3/4), true⟩)], [], 0, []⟩
        ⟨"cifar10_1234", "cifar10", LearningMode.transfer, 2, [], 1234, "pending"⟩
        ⟨false, 0, false⟩).1.model_registry =
      [("cifar10_1234", ⟨"cifar10", some (3/4), true⟩)] ∧
    dictLookup (executeLearningTask ⟨[("cifar10_1234", ⟨"cifar10", some (3/4), true⟩)], [], 0, []⟩
        ⟨"cifar10_1234", "cifar10", LearningMode.transfer, 2, [], 1234, "pending"⟩
        ⟨false, 0, false⟩).1.performance_metrics "cifar10_1234" =
      some ⟨3/4, "cifar10", LearningMode.transfer, 3/4 * (1/10)⟩ ∧
    (executeLearningTask ⟨[("cifar10_1234", ⟨"cifar10", some (3/4), true⟩)], [], 0, []⟩
        ⟨"cifar10_1234", "cifar10", LearningMode.transfer, 2, [], 1234, "pending"⟩
        ⟨false, 0, false⟩).1.saved_models = ["cifar10_1234"] ∧
    (executeLearningTask ⟨[("cifar10_1234", ⟨"cifar10", some (3/4), true⟩)], [], 0, []⟩
        ⟨"cifar10_1234", "cifar10", LearningMode.transfer, 2, [], 1234, "pending"⟩
        ⟨false, 0, false⟩).1.human_intelligence_score = min 1 (0 + 3/4 * (1/10)) ∧
    min (1 : ℚ) (0 + 3/4 * (1/10)) ≠ 0 := by
  refine ⟨by decide, rfl, rfl, rfl, rfl, rfl, ?_⟩
  rw [show (0 : ℚ) + 3/4 * (1/10) = 3/40 by norm_num]
  rw [min_eq_right (by norm_num : (3/40 : ℚ) ≤ 1)]
  norm_num

/-- C10 amended: a transfer task executed while the model registry holds
no entry with a different source dataset and a supervised-style artifact,
and whose task id is not already a key of the model registry, raises
nothing and completes, creating no registry entry, no metric, no persisted
artifact, and leaving the aggregate score unchanged: the whole engine
state is returned as it was.  (Under a colliding task id the stale record
is re-reported instead, as the counterexample shows.) -/
theorem C10_transfer_without_source_completes_without_effect
    (st : EngineState) (task : LearningTask) (o : StratOracle)
    (hmode : task.learning_mode = LearningMode.transfer)
    (hreg : (lookupDataset task.dataset_name).isSome = true)
    (hns : ∀ kv ∈ st.model_registry, kv.2.dataset = task.dataset_name ∨ kv.2.has_model = false)
    (hfresh : dictLookup st.model_registry task.task_id = none) :
    executeLearningTask st task o = (st, { task with status := "completed" }) := by
  have hfind : find_similar_model st.model_registry task.dataset_name = none := by
    unfold find_similar_model
    rw [List.find?_eq_none]
    intro kv hkv
    rcases hns kv hkv with h1 | h1 <;> simp [h1]
  have hdisp : dispatchStrategy st task o = Except.ok st := by
    unfold dispatchStrategy
    rw [hmode, hfind]
  have hupd : update_performance_metrics st task = st := by
    unfold update_performance_metrics
    rw [hfresh]
  have hsm : save_model st task o.saveRaises = Except.ok st := by
    unfold save_model
    rw [hfresh]
  obtain ⟨info, hinfo⟩ := Option.isSome_iff_exists.1 hreg
  simp [executeLearningTask, hinfo, hdisp, hupd, hsm]

/-- Closed instance of the C10 amended theorem at a concrete state and
task with a fresh id. -/
theorem C10_transfer_without_source_witness :
    executeLearningTask c10State
        (mkTask "mnist" LearningMode.transfer 2 [("source_dataset", PVal.str "rice_msc")] 2000)
        ⟨true, 0, true⟩ =
      (c10State,
       { mkTask "mnist" LearningMode.transfer 2 [("source_dataset", PVal.str "rice_msc")] 2000
          with status := "completed" }) :=
  C10_transfer_without_source_completes_without_effect c10State
    (mkTask "mnist" LearningMode.transfer 2 [("source_dataset", PVal.str "rice_msc")] 2000)
    ⟨true, 0, true⟩ rfl (by decide) (by decide) (by decide)

end ContinuousLearning
